import Mathlib

/-!
Verification of the automigration subsystem of this repository
(`plugins/migratecmd/automigrate.go`): the change-event handler
`afterCollectionChange`, the snapshot cache maintained by
`refreshCachedCollections` / `getCachedCollections`, and the migration
file writer embedded in the handler.

The embedding is shallow and sequential.  External collaborators that are
not part of `automigrate.go` — the schema store (`Dao`), the diff/template
renderers (`jsDiffTemplate` / `goDiffTemplate`) and the filesystem calls —
are represented by per-event oracle results carried in an `Env` record,
so every theorem quantifies over all possible behaviours of those
collaborators.  The process-wide cache (`app.Cache()`) is modelled as the
single entry stored under `migratecmd_collections`: `none` when the key is
absent, `some v` when present, where `v` distinguishes a genuine
collection mapping from any other stored value (for the unchecked type
assertion in `getCachedCollections`).
-/

/-- A collection definition (`models.Collection`): identifier, name, and
an opaque `body` standing for the remaining content (fields, rules,
indexes) that the diff engine compares. -/
structure Collection where
  id : String
  name : String
  body : String
deriving DecidableEq, Repr

/-- Association-list map used for both the cached `map[string]*models.Collection`
and the filesystem (path to file content). Insertion overwrites the
existing binding, like a Go map assignment or `os.WriteFile`. -/
def storeSet {α : Type} (m : List (String × α)) (k : String) (v : α) :
    List (String × α) :=
  match m with
  | [] => [(k, v)]
  | (k2, v2) :: rest =>
      if k2 = k then (k, v) :: rest else (k2, v2) :: storeSet rest k v

/-- Lookup in an association-list map; `none` models a missing key (and a
Go nil-map read). -/
def storeGet {α : Type} (m : List (String × α)) (k : String) : Option α :=
  match m with
  | [] => none
  | (k2, v) :: rest => if k2 = k then some v else storeGet rest k

/-- The value found in the process cache under `migratecmd_collections`:
either a genuine collection mapping, or some other value (whose unchecked
type assertion in `getCachedCollections` yields a nil map). -/
inductive CacheVal where
  | colMap (m : List (String × Collection))
  | other
deriving DecidableEq, Repr

/-- Result of `Dao().FindCollectionByNameOrId`: a row, `sql.ErrNoRows`,
or any other error. -/
inductive FindRes where
  | found (c : Collection)
  | noRows
  | otherErr (msg : String)
deriving DecidableEq, Repr

/-- How the handler terminates: `nil`, a returned error, or a runtime
panic (the nil-pointer dereference `old.Name` when both definitions are
absent). -/
inductive HRes where
  | ok
  | err (msg : String)
  | panicked
deriving DecidableEq, Repr

/-- The plugin options used by the handler: `Dir` and `TemplateLang`
(`TemplateLang` is both the renderer selector and the file extension). -/
structure Options where
  dir : String
  templateLang : String
deriving DecidableEq, Repr

/-- Per-event oracle outcomes of the external collaborators:
`daoNil` — whether `app.Dao()` is nil; `allRes1` / `allRes2` — the results
of the first and second `CollectionQuery().All` calls an event may issue
(lazy cache fill, final refresh); `findRes` — the
`FindCollectionByNameOrId` result; `tmpl` — the diff template renderer
(`jsDiffTemplate`/`goDiffTemplate`, code outside `automigrate.go`),
taking the (new, old) pair exactly as the handler passes it; `mkdirRes` /
`writeRes` — `os.MkdirAll` / `os.WriteFile` failures (`none` = success);
`now` — `time.Now().Unix()`. -/
structure Env where
  daoNil : Bool
  allRes1 : Except String (List Collection)
  allRes2 : Except String (List Collection)
  findRes : FindRes
  tmpl : Option Collection → Option Collection → Except String String
  mkdirRes : Option String
  writeRes : Option String
  now : Nat

/-- A model event as seen by the handler: `e.Model.TableName()` and
`e.Model.GetId()`. -/
structure Event where
  tableName : String
  id : String
deriving DecidableEq, Repr

/-- The state the handler can observe and mutate: the process cache entry
under `migratecmd_collections` and the filesystem. -/
structure PState where
  cache : Option CacheVal
  fs : List (String × String)
deriving DecidableEq, Repr

/-- `mapped[c.Id] = c` loop of `refreshCachedCollections`. -/
def buildMapped (collections : List Collection) : List (String × Collection) :=
  collections.foldl (fun m c => storeSet m c.id c) []

/-- Outcome of `refreshCachedCollections`: the returned error (if any),
the cache entry afterwards, and how many store queries were issued. -/
structure RefreshOut where
  err : Option String
  cache : Option CacheVal
  queries : Nat
deriving DecidableEq, Repr

/-- `refreshCachedCollections`: errors when `Dao()` is nil, propagates a
`CollectionQuery().All` failure leaving the cache untouched, otherwise
builds the id-keyed mapping and installs it with a single `Cache().Set`. -/
def refreshCachedCollections (daoNil : Bool)
    (allRes : Except String (List Collection)) (cache : Option CacheVal) :
    RefreshOut :=
  if daoNil then ⟨some "app is not initialized yet", cache, 0⟩
  else
    match allRes with
    | .error e => ⟨some e, cache, 1⟩
    | .ok collections => ⟨none, some (.colMap (buildMapped collections)), 1⟩

/-- The unchecked type assertion
`result, _ := p.app.Cache().Get(collectionsCacheKey).(map[string]*models.Collection)`:
a non-mapping value (or an absent key) yields the nil map. -/
def assertColMap : Option CacheVal → List (String × Collection)
  | some (.colMap m) => m
  | _ => []

/-- Outcome of `getCachedCollections`. -/
structure GetOut where
  result : List (String × Collection)
  err : Option String
  cache : Option CacheVal
  queries : Nat
deriving DecidableEq, Repr

/-- `getCachedCollections`: lazily refreshes when the cache key is absent,
then reads the entry through the unchecked type assertion. -/
def getCachedCollections (daoNil : Bool)
    (allRes : Except String (List Collection)) (cache : Option CacheVal) :
    GetOut :=
  if cache.isSome then ⟨assertColMap cache, none, cache, 0⟩
  else
    let r := refreshCachedCollections daoNil allRes cache
    match r.err with
    | some e => ⟨[], some e, r.cache, r.queries⟩
    | none => ⟨assertColMap r.cache, none, r.cache, r.queries⟩

/-- Lines 33–36 of `automigrate.go`: `sql.ErrNoRows` is translated to a
nil (absent) collection, any other error is returned. -/
def resolveNew : FindRes → Except String (Option Collection)
  | .found c => .ok (some c)
  | .noRows => .ok none
  | .otherErr msg => .error msg

/-- `fmt.Sprintf("%d_%s.%s", appliedTime, action, p.options.TemplateLang)`. -/
def migrationFileName (now : Nat) (action ext : String) : String :=
  toString now ++ "_" ++ action ++ "." ++ ext

/-- `filepath.Join` of the migrations dir and the file name (path
cleaning is not modelled; an empty dir yields the bare name). -/
def filepathJoin (dir name : String) : String :=
  if dir = "" then name else dir ++ "/" ++ name

/-- Outcome of one handler invocation: the returned value, the state
afterwards, and how many schema-store queries were issued. -/
structure HOut where
  res : HRes
  cache : Option CacheVal
  fs : List (String × String)
  queries : Nat
deriving DecidableEq, Repr

/-- Lines 38–73 of `automigrate.go`, after `old` and `new` have been
resolved: render the diff template, pick the action label (note the
nil-pointer dereference `old.Name` when both are absent), build the file
destination, create the directory, write the file, and refresh the cache
discarding the refresh error. `cache` is the cache entry after the
initial `getCachedCollections`, `queries` the store queries issued so
far. -/
def processDiff (opts : Options) (env : Env) (fs : List (String × String))
    (cache : Option CacheVal) (queries : Nat)
    (old : Option Collection) (new : Option Collection) : HOut :=
  match env.tmpl new old with
  | .error te => ⟨.err ("failed to resolve template: " ++ te), cache, fs, queries⟩
  | .ok template =>
    match new, old with
    | none, none => ⟨.panicked, cache, fs, queries⟩
    | _, _ =>
      let action :=
        match new, old with
        | none, some o => "deleted_" ++ o.name
        | some n, none => "created_" ++ n.name
        | _, some o => "updated_" ++ o.name
        | _, _ => ""
      let fileDest :=
        filepathJoin opts.dir (migrationFileName env.now action opts.templateLang)
      match env.mkdirRes with
      | some me => ⟨.err ("failed to create migration dir: " ++ me), cache, fs, queries⟩
      | none =>
        match env.writeRes with
        | some we => ⟨.err ("failed to save automigrate file: " ++ we), cache, fs, queries⟩
        | none =>
          let fs2 := storeSet fs fileDest template
          let r := refreshCachedCollections env.daoNil env.allRes2 cache
          ⟨.ok, r.cache, fs2, queries + r.queries⟩

/-- The handler returned by `afterCollectionChange`: ignore non-collection
models, read the cached collections (lazily filling the cache), resolve
the current definition (`sql.ErrNoRows` = absent), then diff, render,
write and refresh via `processDiff`. -/
def afterCollectionChange (opts : Options) (env : Env) (e : Event)
    (st : PState) : HOut :=
  if e.tableName ≠ "_collections" then ⟨.ok, st.cache, st.fs, 0⟩
  else
    let g := getCachedCollections env.daoNil env.allRes1 st.cache
    match g.err with
    | some msg => ⟨.err msg, g.cache, st.fs, g.queries⟩
    | none =>
      let old := storeGet g.result e.id
      match resolveNew env.findRes with
      | .error msg => ⟨.err msg, g.cache, st.fs, g.queries + 1⟩
      | .ok new => processDiff opts env st.fs g.cache (g.queries + 1) old new

/-- The action label as the spec's file-naming contract describes it
(§4.5): the verb for the change kind concatenated with the collection's
name (`old`'s for delete/update, `new`'s for create). -/
def actionLabel : Option Collection → Option Collection → String
  | some o, none => "deleted_" ++ o.name
  | none, some n => "created_" ++ n.name
  | some o, some _ => "updated_" ++ o.name
  | none, none => ""

/-- A primitive change operation of the diff engine. The field-by-field
detail of an update collapses into `alterCollection` carrying both
definitions; what the claims need is only which diffs are empty. -/
inductive DiffOp where
  | createCollection (c : Collection)
  | deleteCollection (c : Collection)
  | alterCollection (o n : Collection)
deriving DecidableEq, Repr

/-- Modelled from the spec: the Diff Engine (§4.3, not under `src/`, it
lives in the template files of the plugin). `old` absent → one create op;
`new` absent → one delete op; both present and deep-equal → empty diff;
both present and different → the structural diff (collapsed here into a
single alter op); both absent → empty diff. -/
def specDiff : Option Collection → Option Collection → List DiffOp
  | none, none => []
  | none, some n => [.createCollection n]
  | some o, none => [.deleteCollection o]
  | some o, some n => if o = n then [] else [.alterCollection o n]

theorem storeGet_storeSet_self {α : Type} (m : List (String × α)) (k : String)
    (v : α) : storeGet (storeSet m k v) k = some v := by
  induction m with
  | nil => simp [storeSet, storeGet]
  | cons p rest ih =>
    by_cases h : p.1 = k
    · simp [storeSet, storeGet, h]
    · simp [storeSet, storeGet, h, ih]

/-- C9: a model event whose table is not `_collections` is ignored: the
handler returns success, issues no store query, and leaves the cache and
the filesystem untouched. -/
theorem C9_non_collection_ignored (opts : Options) (env : Env) (e : Event)
    (st : PState) (h : e.tableName ≠ "_collections") :
    afterCollectionChange opts env e st = ⟨.ok, st.cache, st.fs, 0⟩ := by
  unfold afterCollectionChange
  rw [if_pos h]

theorem C9_non_collection_ignored_witness :
    (Event.mk "_users" "c1").tableName ≠ "_collections" ∧
      afterCollectionChange ⟨"migs", "js"⟩
        ⟨false, .ok [], .ok [], .noRows, fun _ _ => .ok "T", none, none, 100⟩
        ⟨"_users", "c1"⟩ ⟨some (.colMap []), []⟩ =
        ⟨.ok, some (.colMap []), [], 0⟩ :=
  ⟨by decide, C9_non_collection_ignored _ _ _ _ (by decide)⟩

/-- C7: `refreshCachedCollections` (with an initialized Dao) tolerates an
empty store, installing the empty mapping without error; any successful
query installs the full freshly built mapping in one step; a query
failure is propagated verbatim and leaves the cache entry exactly at its
previous value. -/
theorem C7_refresh_atomic (cache : Option CacheVal) (msg : String)
    (cs : List Collection) :
    refreshCachedCollections false (.ok []) cache =
        ⟨none, some (.colMap []), 1⟩ ∧
      refreshCachedCollections false (.ok cs) cache =
        ⟨none, some (.colMap (buildMapped cs)), 1⟩ ∧
      refreshCachedCollections false (.error msg) cache = ⟨some msg, cache, 1⟩ := by
  refine ⟨?_, ?_, ?_⟩ <;> simp [refreshCachedCollections, buildMapped]

/-- C10: when the cache key is already present, `getCachedCollections`
issues no store query and returns no error, reading the entry through the
unchecked type assertion; a non-mapping value under the key silently
yields the nil (empty) mapping rather than an error. -/
theorem C10_cached_get (daoNil : Bool) (allRes : Except String (List Collection))
    (v : CacheVal) :
    getCachedCollections daoNil allRes (some v) =
        ⟨assertColMap (some v), none, some v, 0⟩ ∧
      getCachedCollections daoNil allRes (some .other) =
        ⟨[], none, some .other, 0⟩ := by
  constructor <;> simp [getCachedCollections, assertColMap]

/-- C3: with the cache populated, a `sql.ErrNoRows` result from the store
query is treated as a legitimately absent current definition — the
handler continues processing with `new = none` instead of returning an
error — while every other store-query error is returned to the caller
as-is. -/
theorem C3_noRows_is_absence (opts : Options) (env : Env) (e : Event)
    (st : PState) (v : CacheVal) (h1 : e.tableName = "_collections")
    (h2 : st.cache = some v) :
    (env.findRes = .noRows →
        afterCollectionChange opts env e st =
          processDiff opts env st.fs (some v) 1
            (storeGet (assertColMap (some v)) e.id) none) ∧
      (∀ msg, env.findRes = .otherErr msg →
        afterCollectionChange opts env e st = ⟨.err msg, some v, st.fs, 1⟩) := by
  constructor
  · intro hf
    unfold afterCollectionChange
    rw [if_neg (by simp [h1])]
    simp [getCachedCollections, h2, hf, resolveNew]
  · intro msg hf
    unfold afterCollectionChange
    rw [if_neg (by simp [h1])]
    simp [getCachedCollections, h2, hf, resolveNew]

theorem C3_noRows_is_absence_witness :
    (Event.mk "_collections" "c1").tableName = "_collections" ∧
      (PState.mk (some (.colMap [])) []).cache = some (.colMap []) ∧
      ((Env.mk false (.ok []) (.ok []) .noRows (fun _ _ => .ok "T") none none
          100).findRes = .noRows →
        afterCollectionChange ⟨"migs", "js"⟩
            ⟨false, .ok [], .ok [], .noRows, fun _ _ => .ok "T", none, none, 100⟩
            ⟨"_collections", "c1"⟩ ⟨some (.colMap []), []⟩ =
          processDiff ⟨"migs", "js"⟩
            ⟨false, .ok [], .ok [], .noRows, fun _ _ => .ok "T", none, none, 100⟩
            [] (some (.colMap [])) 1
            (storeGet (assertColMap (some (.colMap []))) "c1") none) :=
  ⟨rfl, rfl,
    (C3_noRows_is_absence ⟨"migs", "js"⟩ _ ⟨"_collections", "c1"⟩
      ⟨some (.colMap []), []⟩ (.colMap []) rfl rfl).1⟩

theorem afterChange_hit_ok (opts : Options) (env : Env) (e : Event)
    (st : PState) (v : CacheVal) (nw : Option Collection)
    (h1 : e.tableName = "_collections") (h2 : st.cache = some v)
    (hf : resolveNew env.findRes = .ok nw) :
    afterCollectionChange opts env e st =
      processDiff opts env st.fs (some v) 1
        (storeGet (assertColMap (some v)) e.id) nw := by
  unfold afterCollectionChange
  rw [if_neg (by simp [h1])]
  simp only [getCachedCollections, h2, Option.isSome_some, if_pos]
  rw [hf]

theorem processDiff_write (opts : Options) (env : Env)
    (fs : List (String × String)) (cache : Option CacheVal) (q : Nat)
    (old nw : Option Collection) (t : String)
    (htm : env.tmpl nw old = .ok t) (hm : env.mkdirRes = none)
    (hw : env.writeRes = none) (hsome : nw.isSome ∨ old.isSome) :
    processDiff opts env fs cache q old nw =
      ⟨.ok, (refreshCachedCollections env.daoNil env.allRes2 cache).cache,
        storeSet fs
          (filepathJoin opts.dir
            (migrationFileName env.now (actionLabel old nw) opts.templateLang)) t,
        q + (refreshCachedCollections env.daoNil env.allRes2 cache).queries⟩ := by
  unfold processDiff
  rw [htm]
  cases nw <;> cases old <;> simp_all [actionLabel]

theorem processDiff_cases (opts : Options) (env : Env)
    (fs : List (String × String)) (cache : Option CacheVal) (q : Nat)
    (old nw : Option Collection) :
    (processDiff opts env fs cache q old nw).res = HRes.ok ∨
      ((processDiff opts env fs cache q old nw).res ≠ HRes.ok ∧
        (processDiff opts env fs cache q old nw).cache = cache ∧
        (processDiff opts env fs cache q old nw).fs = fs) := by
  unfold processDiff
  cases htm : env.tmpl nw old
  · right; simp
  · cases nw <;> cases old
    · right; simp
    all_goals
      cases hm : env.mkdirRes
      · cases hw : env.writeRes
        · left; simp
        · right; simp
      · right; simp

theorem afterChange_hit_err (opts : Options) (env : Env) (e : Event)
    (st : PState) (v : CacheVal) (msg : String)
    (h1 : e.tableName = "_collections") (h2 : st.cache = some v)
    (hf : resolveNew env.findRes = .error msg) :
    afterCollectionChange opts env e st = ⟨.err msg, some v, st.fs, 1⟩ := by
  unfold afterCollectionChange
  rw [if_neg (by simp [h1])]
  simp only [getCachedCollections, h2, Option.isSome_some, if_pos]
  rw [hf]

def exOpts : Options := ⟨"migs", "js"⟩

def colA : Collection := ⟨"c1", "posts", "A"⟩

def colB : Collection := ⟨"c1", "posts", "B"⟩

def tmplConst : Option Collection → Option Collection → Except String String :=
  fun _ _ => .ok "NEW"

def evC : Event := ⟨"_collections", "c1"⟩

def envMissBoom : Env :=
  ⟨false, .ok [colA], .ok [], .otherErr "boom", tmplConst, none, none, 100⟩

def envHitBoom : Env :=
  ⟨false, .ok [], .ok [], .otherErr "boom", tmplConst, none, none, 100⟩

def envNoRows : Env :=
  ⟨false, .ok [], .ok [], .noRows, tmplConst, none, none, 100⟩

/-- C1 counterexample: with the cache key absent pre-event, the lazy
cache read inside the handler installs a fresh mapping; when the
subsequent store query then fails, the handler returns that error, yet
the cache is no longer at its pre-event (absent) value — the event was
not atomic with respect to the cache. -/
theorem C1_counterexample :
    (afterCollectionChange exOpts envMissBoom evC ⟨none, []⟩).res =
        .err "boom" ∧
      (afterCollectionChange exOpts envMissBoom evC ⟨none, []⟩).cache ≠
        (PState.mk none []).cache := by
  decide

/-- C1 (amended): a failing event leaves the cache at the value
established by its initial cache read: if the key was already present the
cache is exactly its pre-event value, and if the key was absent and the
lazy fill's store query itself fails, the cache stays absent (but a lazy
fill that succeeds persists even when a later step fails). -/
theorem C1_failure_preserves_cache (opts : Options) (env : Env) (e : Event)
    (st : PState) :
    (st.cache.isSome → (afterCollectionChange opts env e st).res ≠ .ok →
        (afterCollectionChange opts env e st).cache = st.cache) ∧
      (e.tableName = "_collections" → st.cache = none → env.daoNil = false →
        ∀ msg, env.allRes1 = .error msg →
          afterCollectionChange opts env e st = ⟨.err msg, none, st.fs, 1⟩) := by
  constructor
  · intro hs hfail
    obtain ⟨v, hv⟩ := Option.isSome_iff_exists.mp hs
    by_cases ht : e.tableName = "_collections"
    · cases hres : resolveNew env.findRes with
      | error msg =>
          rw [afterChange_hit_err opts env e st v msg ht hv hres, hv]
      | ok nw =>
          rw [afterChange_hit_ok opts env e st v nw ht hv hres] at hfail ⊢
          rcases processDiff_cases opts env st.fs (some v) 1
              (storeGet (assertColMap (some v)) e.id) nw with hok | ⟨_, hc, _⟩
          · exact absurd hok hfail
          · rw [hc, hv]
    · have hne : afterCollectionChange opts env e st = ⟨.ok, st.cache, st.fs, 0⟩ := by
        unfold afterCollectionChange
        rw [if_pos ht]
      rw [hne] at hfail
      exact absurd rfl hfail
  · intro ht hnone hdao msg hall
    unfold afterCollectionChange
    rw [if_neg (by simp [ht])]
    simp [getCachedCollections, hnone, refreshCachedCollections, hdao, hall]

theorem C1_failure_preserves_cache_witness :
    (PState.mk (some (.colMap [("c1", colA)])) []).cache.isSome ∧
      (afterCollectionChange exOpts envHitBoom evC
          ⟨some (.colMap [("c1", colA)]), []⟩).res ≠ .ok ∧
      (afterCollectionChange exOpts envHitBoom evC
          ⟨some (.colMap [("c1", colA)]), []⟩).cache =
        (PState.mk (some (.colMap [("c1", colA)])) []).cache :=
  ⟨by decide, by decide,
    (C1_failure_preserves_cache exOpts envHitBoom evC
        ⟨some (.colMap [("c1", colA)]), []⟩).1 (by decide) (by decide)⟩

/-- C6 counterexample: an event whose collection is absent from both the
cache and the store (find reports no rows), with a renderer that returns
text, makes the handler dereference the nil `old` in `old.Name` — a
panic, not a successful no-op. -/
theorem C6_counterexample :
    (afterCollectionChange exOpts envNoRows evC
        ⟨some (.colMap []), []⟩).res = .panicked := by
  decide

/-- C6 (amended): when both the old and the new definition are absent the
event never completes as a successful no-op: a renderer error is
propagated as a failure, and a renderer success leads to the nil-pointer
panic on `old.Name` in the action switch. -/
theorem C6_both_absent_never_ok (opts : Options) (env : Env) (e : Event)
    (st : PState) (m : List (String × Collection))
    (h1 : e.tableName = "_collections") (h2 : st.cache = some (.colMap m))
    (h3 : storeGet m e.id = none) (h4 : env.findRes = .noRows) :
    (afterCollectionChange opts env e st).res ≠ .ok ∧
      (∀ t, env.tmpl none none = .ok t →
        (afterCollectionChange opts env e st).res = .panicked) ∧
      (∀ msg, env.tmpl none none = .error msg →
        (afterCollectionChange opts env e st).res =
          .err ("failed to resolve template: " ++ msg)) := by
  have hr : resolveNew env.findRes = .ok none := by rw [h4]; rfl
  rw [afterChange_hit_ok opts env e st _ none h1 h2 hr]
  have hold : storeGet (assertColMap (some (.colMap m))) e.id = none := by
    simpa [assertColMap] using h3
  rw [hold]
  unfold processDiff
  cases htm : env.tmpl none none with
  | error msg => simp [htm]
  | ok t => simp [htm]

theorem C6_both_absent_never_ok_witness :
    (Event.mk "_collections" "c1").tableName = "_collections" ∧
      (PState.mk (some (.colMap [])) []).cache = some (.colMap []) ∧
      storeGet ([] : List (String × Collection)) "c1" = none ∧
      envNoRows.findRes = .noRows ∧
      (afterCollectionChange exOpts envNoRows evC
          ⟨some (.colMap []), []⟩).res ≠ .ok :=
  ⟨rfl, rfl, rfl, rfl,
    (C6_both_absent_never_ok exOpts envNoRows evC ⟨some (.colMap []), []⟩ []
        rfl rfl rfl rfl).1⟩

def envSame : Env :=
  ⟨false, .ok [], .ok [colA], .found colA, tmplConst, none, none, 100⟩

def envUpdB : Env :=
  ⟨false, .ok [], .ok [colB], .found colB, tmplConst, none, none, 100⟩

def envStale : Env :=
  ⟨false, .ok [], .error "down", .found colB, tmplConst, none, none, 100⟩

/-- C2 counterexample: an update event whose old and new definitions are
deep-equal (empty diff) on which the renderer reports text without error:
the handler returns success but a migration file has been written, so
"writes no migration file" fails on the code. -/
theorem C2_counterexample :
    specDiff (some colA) (some colA) = [] ∧
      (afterCollectionChange exOpts envSame evC
          ⟨some (.colMap [("c1", colA)]), []⟩).res = .ok ∧
      storeGet (afterCollectionChange exOpts envSame evC
            ⟨some (.colMap [("c1", colA)]), []⟩).fs
          "migs/100_updated_posts.js" = some "NEW" ∧
      (afterCollectionChange exOpts envSame evC
          ⟨some (.colMap [("c1", colA)]), []⟩).fs ≠
        ([] : List (String × String)) := by
  decide

/-- C2 (amended): the handler never special-cases an empty diff: whenever
the renderer returns text without error — also when old and new are
deep-equal, giving an empty diff — a migration file is written and the
event succeeds (and a renderer-signalled error, however it encodes a
no-op, is propagated as a failure rather than success). -/
theorem C2_empty_diff_still_writes (opts : Options) (env : Env) (e : Event)
    (st : PState) (m : List (String × Collection)) (c : Collection) (t : String)
    (h1 : e.tableName = "_collections") (h2 : st.cache = some (.colMap m))
    (h3 : storeGet m e.id = some c) (h4 : env.findRes = .found c)
    (h5 : env.tmpl (some c) (some c) = .ok t)
    (h6 : env.mkdirRes = none) (h7 : env.writeRes = none) :
    specDiff (some c) (some c) = [] ∧
      (afterCollectionChange opts env e st).res = .ok ∧
      storeGet (afterCollectionChange opts env e st).fs
        (filepathJoin opts.dir
          (migrationFileName env.now ("updated_" ++ c.name)
            opts.templateLang)) = some t := by
  have hr : resolveNew env.findRes = .ok (some c) := by rw [h4]; rfl
  rw [afterChange_hit_ok opts env e st _ (some c) h1 h2 hr]
  have hold : storeGet (assertColMap (some (.colMap m))) e.id = some c := by
    simpa [assertColMap] using h3
  rw [hold]
  rw [processDiff_write opts env st.fs _ 1 (some c) (some c) t h5 h6 h7
    (by simp)]
  exact ⟨by simp [specDiff], rfl, storeGet_storeSet_self st.fs _ t⟩

theorem C2_empty_diff_still_writes_witness :
    specDiff (some colA) (some colA) = [] ∧
      (afterCollectionChange exOpts envSame evC
          ⟨some (.colMap [("c1", colA)]), []⟩).res = .ok :=
  ⟨(C2_empty_diff_still_writes exOpts envSame evC
      ⟨some (.colMap [("c1", colA)]), []⟩ [("c1", colA)] colA "NEW"
      rfl rfl (by decide) rfl rfl rfl rfl).1,
    (C2_empty_diff_still_writes exOpts envSame evC
      ⟨some (.colMap [("c1", colA)]), []⟩ [("c1", colA)] colA "NEW"
      rfl rfl (by decide) rfl rfl rfl rfl).2.1⟩

/-- C4 counterexample: an otherwise successful update event whose final
cache refresh hits a failing store query: the handler still returns
success, but the cache entry for the mutated collection is its stale
pre-event definition, not the post-mutation one. -/
theorem C4_counterexample :
    envStale.findRes = .found colB ∧
      (afterCollectionChange exOpts envStale evC
          ⟨some (.colMap [("c1", colA)]), []⟩).res = .ok ∧
      storeGet (assertColMap (afterCollectionChange exOpts envStale evC
            ⟨some (.colMap [("c1", colA)]), []⟩).cache) "c1" = some colA ∧
      colA ≠ colB := by
  decide

/-- C4 (amended): after a successfully completed event, the cache equals
the freshly built post-event store snapshot only when the trailing
refresh's store query succeeds; when that query fails the error is
discarded — the handler still returns success and the cache keeps its
pre-refresh (possibly stale) value. -/
theorem C4_success_cache (opts : Options) (env : Env) (e : Event)
    (st : PState) (v : CacheVal) (nw : Option Collection) (t : String)
    (h1 : e.tableName = "_collections") (h2 : st.cache = some v)
    (h3 : resolveNew env.findRes = .ok nw)
    (h4 : env.tmpl nw (storeGet (assertColMap (some v)) e.id) = .ok t)
    (h5 : env.mkdirRes = none) (h6 : env.writeRes = none)
    (h7 : nw.isSome ∨ (storeGet (assertColMap (some v)) e.id).isSome) :
    (afterCollectionChange opts env e st).res = .ok ∧
      (env.daoNil = false → ∀ cs, env.allRes2 = .ok cs →
        (afterCollectionChange opts env e st).cache =
          some (.colMap (buildMapped cs))) ∧
      (∀ msg, env.allRes2 = .error msg →
        (afterCollectionChange opts env e st).cache = some v) := by
  rw [afterChange_hit_ok opts env e st v nw h1 h2 h3]
  rw [processDiff_write opts env st.fs (some v) 1
    (storeGet (assertColMap (some v)) e.id) nw t h4 h5 h6 h7]
  refine ⟨rfl, ?_, ?_⟩
  · intro hdao cs hall
    simp [refreshCachedCollections, hdao, hall]
  · intro msg hall
    cases hdao : env.daoNil <;> simp [refreshCachedCollections, hdao, hall]

theorem C4_success_cache_witness :
    envStale.allRes2 = .error "down" ∧
      (afterCollectionChange exOpts envStale evC
          ⟨some (.colMap [("c1", colA)]), []⟩).res = .ok ∧
      (afterCollectionChange exOpts envStale evC
          ⟨some (.colMap [("c1", colA)]), []⟩).cache =
        some (.colMap [("c1", colA)]) :=
  ⟨rfl,
    (C4_success_cache exOpts envStale evC ⟨some (.colMap [("c1", colA)]), []⟩
      (.colMap [("c1", colA)]) (some colB) "NEW" rfl rfl rfl rfl rfl rfl
      (Or.inl rfl)).1,
    (C4_success_cache exOpts envStale evC ⟨some (.colMap [("c1", colA)]), []⟩
      (.colMap [("c1", colA)]) (some colB) "NEW" rfl rfl rfl rfl rfl rfl
      (Or.inl rfl)).2.2 "down" rfl⟩

/-- C5 counterexample: when a file with the computed name already exists
(e.g. a second change in the same second), the handler overwrites it:
the prior content "OLD" is replaced by the new render "NEW" with no
disambiguation and no failure. -/
theorem C5_counterexample :
    storeGet ([("migs/100_updated_posts.js", "OLD")] : List (String × String))
        "migs/100_updated_posts.js" = some "OLD" ∧
      (afterCollectionChange exOpts envUpdB evC
          ⟨some (.colMap [("c1", colA)]),
            [("migs/100_updated_posts.js", "OLD")]⟩).res = .ok ∧
      storeGet (afterCollectionChange exOpts envUpdB evC
            ⟨some (.colMap [("c1", colA)]),
              [("migs/100_updated_posts.js", "OLD")]⟩).fs
          "migs/100_updated_posts.js" = some "NEW" ∧
      ("NEW" : String) ≠ "OLD" := by
  decide

/-- C5 (amended): the writer calls `os.WriteFile` unconditionally: when a
file with the computed name already exists in the migrations directory,
the event still succeeds and that file now holds the newly rendered
content — the existing content is silently replaced, with no
disambiguation. -/
theorem C5_write_replaces_existing (opts : Options) (env : Env) (e : Event)
    (st : PState) (v : CacheVal) (nw : Option Collection) (t prior : String)
    (h1 : e.tableName = "_collections") (h2 : st.cache = some v)
    (h3 : resolveNew env.findRes = .ok nw)
    (h4 : env.tmpl nw (storeGet (assertColMap (some v)) e.id) = .ok t)
    (h5 : env.mkdirRes = none) (h6 : env.writeRes = none)
    (h7 : nw.isSome ∨ (storeGet (assertColMap (some v)) e.id).isSome)
    (h8 : storeGet st.fs
        (filepathJoin opts.dir
          (migrationFileName env.now
            (actionLabel (storeGet (assertColMap (some v)) e.id) nw)
            opts.templateLang)) = some prior) :
    (afterCollectionChange opts env e st).res = .ok ∧
      storeGet (afterCollectionChange opts env e st).fs
        (filepathJoin opts.dir
          (migrationFileName env.now
            (actionLabel (storeGet (assertColMap (some v)) e.id) nw)
            opts.templateLang)) = some t := by
  rw [afterChange_hit_ok opts env e st v nw h1 h2 h3]
  rw [processDiff_write opts env st.fs (some v) 1
    (storeGet (assertColMap (some v)) e.id) nw t h4 h5 h6 h7]
  exact ⟨rfl, storeGet_storeSet_self st.fs _ t⟩

theorem C5_write_replaces_existing_witness :
    storeGet ([("migs/100_updated_posts.js", "OLD")] : List (String × String))
        (filepathJoin exOpts.dir
          (migrationFileName envUpdB.now
            (actionLabel
              (storeGet (assertColMap (some (.colMap [("c1", colA)]))) evC.id)
              (some colB))
            exOpts.templateLang)) = some "OLD" ∧
      (afterCollectionChange exOpts envUpdB evC
          ⟨some (.colMap [("c1", colA)]),
            [("migs/100_updated_posts.js", "OLD")]⟩).res = .ok :=
  ⟨by decide,
    (C5_write_replaces_existing exOpts envUpdB evC
      ⟨some (.colMap [("c1", colA)]), [("migs/100_updated_posts.js", "OLD")]⟩
      (.colMap [("c1", colA)]) (some colB) "NEW" "OLD" rfl rfl rfl rfl rfl rfl
      (Or.inl rfl) (by decide)).1⟩

/-- C8: a successfully processed event writes the rendered template at
the path obtained by joining the configured migrations directory with
`<unix-timestamp>_<action>.<extension>`, where the action is
`deleted_<old name>` when the new definition is absent, `created_<new name>`
when the old definition is absent, `updated_<old name>` otherwise, and the
extension is the configured template dialect. -/
theorem C8_migration_file_path (opts : Options) (env : Env) (e : Event)
    (st : PState) (v : CacheVal) (nw : Option Collection) (t : String)
    (h1 : e.tableName = "_collections") (h2 : st.cache = some v)
    (h3 : resolveNew env.findRes = .ok nw)
    (h4 : env.tmpl nw (storeGet (assertColMap (some v)) e.id) = .ok t)
    (h5 : env.mkdirRes = none) (h6 : env.writeRes = none)
    (h7 : nw.isSome ∨ (storeGet (assertColMap (some v)) e.id).isSome) :
    (afterCollectionChange opts env e st).res = .ok ∧
      (nw = none → ∀ o, storeGet (assertColMap (some v)) e.id = some o →
        storeGet (afterCollectionChange opts env e st).fs
          (filepathJoin opts.dir
            (migrationFileName env.now ("deleted_" ++ o.name)
              opts.templateLang)) = some t) ∧
      (storeGet (assertColMap (some v)) e.id = none → ∀ n, nw = some n →
        storeGet (afterCollectionChange opts env e st).fs
          (filepathJoin opts.dir
            (migrationFileName env.now ("created_" ++ n.name)
              opts.templateLang)) = some t) ∧
      (∀ o n, storeGet (assertColMap (some v)) e.id = some o → nw = some n →
        storeGet (afterCollectionChange opts env e st).fs
          (filepathJoin opts.dir
            (migrationFileName env.now ("updated_" ++ o.name)
              opts.templateLang)) = some t) := by
  rw [afterChange_hit_ok opts env e st v nw h1 h2 h3]
  rw [processDiff_write opts env st.fs (some v) 1
    (storeGet (assertColMap (some v)) e.id) nw t h4 h5 h6 h7]
  refine ⟨rfl, ?_, ?_, ?_⟩
  · intro hn o ho
    rw [hn, ho]
    exact storeGet_storeSet_self st.fs _ t
  · intro ho n hn
    rw [hn, ho]
    exact storeGet_storeSet_self st.fs _ t
  · intro o n ho hn
    rw [hn, ho]
    exact storeGet_storeSet_self st.fs _ t

theorem C8_migration_file_path_witness :
    storeGet (assertColMap (some (CacheVal.colMap [("c1", colA)]))) evC.id =
        some colA ∧
      storeGet (afterCollectionChange exOpts envUpdB evC
            ⟨some (.colMap [("c1", colA)]), []⟩).fs
          (filepathJoin exOpts.dir
            (migrationFileName envUpdB.now ("updated_" ++ colA.name)
              exOpts.templateLang)) = some "NEW" :=
  ⟨by decide,
    (C8_migration_file_path exOpts envUpdB evC
        ⟨some (.colMap [("c1", colA)]), []⟩ (.colMap [("c1", colA)])
        (some colB) "NEW" rfl rfl rfl rfl rfl rfl (Or.inl rfl)).2.2.2 colA colB
      (by decide) rfl⟩
